import Mathlib

/-!
Verification of the device state reconciliation and segment-mapping engine of
the `ledwebcontrol113CP` backend (`backend/app/utils/device_manager.py`,
`backend/app/utils/file_helpers.py`, `backend/app/api/devices.py`).

The embedding is shallow: every definition below translates the corresponding
Python code.  JSON values returned by the device transport are modelled by
`JVal`; Python truthiness, `dict.get`, the `or` operator and `int(s, 16)`
are embedded by dedicated helpers.  Device records from the persisted
inventory are modelled at the schema used by the repository's own data file
(string colors, integer ids); transport calls are supplied as oracle values
so each operation is a pure function of its inputs and the transport
outcomes.
-/

namespace LedWebControl

/-- JSON values, as handled dynamically by the Python code. -/
inductive JVal where
  | jnull : JVal
  | jbool : Bool → JVal
  | jnum : Int → JVal
  | jstr : String → JVal
  | jarr : List JVal → JVal
  | jobj : List (String × JVal) → JVal

/-- Python truthiness (`if x:`) for JSON values: `None`, `False`, `0`, `""`,
`[]` and `{}` are falsy. -/
def jTruthy : JVal → Bool
  | .jnull => false
  | .jbool b => b
  | .jnum n => n != 0
  | .jstr s => s != ""
  | .jarr [] => false
  | .jarr (_ :: _) => true
  | .jobj [] => false
  | .jobj (_ :: _) => true

/-- First binding for a key in a JSON object (Python dict keys are unique). -/
def jLookup : List (String × JVal) → String → Option JVal
  | [], _ => none
  | (k, v) :: t, key => if k = key then some v else jLookup t key

/-- Python `d.get(key)`: `none` models the `AttributeError` raised when the
receiver is not a dict; a missing key yields JSON null (`None`). -/
def pyGet (v : JVal) (key : String) : Option JVal :=
  match v with
  | .jobj fs => some ((jLookup fs key).getD .jnull)
  | _ => none

/-- `d.get(key)` on a value already known to be a dict (returns `None` when
the key is missing). -/
def jGetD (v : JVal) (key : String) : JVal :=
  match v with
  | .jobj fs => (jLookup fs key).getD .jnull
  | _ => .jnull

/-- `isinstance(v, dict)`. -/
def jIsObj : JVal → Bool
  | .jobj _ => true
  | _ => false

/-- `isinstance(v, int)` — in Python `bool` is a subclass of `int`. -/
def jIsInt : JVal → Bool
  | .jnum _ => true
  | .jbool _ => true
  | _ => false

/-- Numeric value of a Python int, with `True = 1` and `False = 0`. -/
def jIntVal : JVal → Int
  | .jnum n => n
  | .jbool b => if b then 1 else 0
  | _ => 0

/-- Python `a or b` on JSON values: the first operand if truthy, else the
second. -/
def pyOrJ (a b : JVal) : JVal :=
  if jTruthy a then a else b

/-- Python whitespace recognized by `str.strip()` (ASCII portion). -/
def isPyWs (c : Char) : Bool :=
  c = ' ' || c = '\t' || c = '\n' || c = '\r' || c = '\x0b' || c = '\x0c'

/-- `str.strip()`: drop whitespace from both ends. -/
def pyStrip (l : List Char) : List Char :=
  ((l.dropWhile isPyWs).reverse.dropWhile isPyWs).reverse

/-- Value of one hexadecimal digit. -/
def hexVal (c : Char) : Option Int :=
  if '0' ≤ c ∧ c ≤ '9' then some ((c.toNat : Int) - ('0'.toNat : Int))
  else if 'a' ≤ c ∧ c ≤ 'f' then some ((c.toNat : Int) - ('a'.toNat : Int) + 10)
  else if 'A' ≤ c ∧ c ≤ 'F' then some ((c.toNat : Int) - ('A'.toNat : Int) + 10)
  else none

/-- Python `int(s, 16)` restricted to two-character inputs, as used on the
slices `s[0:2]`, `s[2:4]`, `s[4:6]`: two hex digits, or a single digit with
one leading sign, leading whitespace or trailing whitespace. -/
def pyIntHex2 (a b : Char) : Option Int :=
  match hexVal a, hexVal b with
  | some x, some y => some (16 * x + y)
  | _, _ =>
    if isPyWs a ∨ a = '+' then hexVal b
    else if a = '-' then (hexVal b).map (fun v => -v)
    else if isPyWs b then hexVal a
    else none

/-- `''.join([c*2 for c in s])`. -/
def doubleChars : List Char → List Char
  | [] => []
  | c :: cs => c :: c :: doubleChars cs

/-- `_hex_to_rgb` (device_manager.py, defined identically at lines 263-277 and
417-431): strip whitespace, strip leading `#`s, double a 3-character form,
then parse three two-character channels via `int(·, 16)`; any failure yields
`None`. -/
def hex_to_rgb (s : String) : Option (Int × Int × Int) :=
  let t := (pyStrip s.data).dropWhile (fun c => c = '#')
  let t := if t.length = 3 then doubleChars t else t
  match t with
  | [a, b, c, d, e, f] =>
    match pyIntHex2 a b, pyIntHex2 c d, pyIntHex2 e f with
    | some r, some g, some bl => some (r, g, bl)
    | _, _, _ => none
  | _ => none

/-- `hex_to_rgb` lifted to an optional color (`_hex_to_rgb(None)` returns
`None` via the `not hex_str` guard, and so does the empty string). -/
def hexToRgbOpt (c : Option String) : Option (Int × Int × Int) :=
  match c with
  | none => none
  | some s => hex_to_rgb s

/-- Truthiness of an optional string (`None` and `""` are falsy). -/
def truthyStr : Option String → Bool
  | some s => s != ""
  | none => false

/-- Python `a or b` on optional strings. -/
def pyOrStr (a b : Option String) : Option String :=
  if truthyStr a then a else b

/-! ## Data model

Device records carry the fields of `network_devices.json` that the Device
Manager reads.  `segColors` models `device_segment_colors or []` (absent or
falsy becomes the empty list), `brightness` is `some b` exactly when the
stored `device_brightness` is an int, and `segMapping` is the optional saved
`device_segment_mapping` (entries may be missing fields, as `entry.get`
tolerates). -/

/-- One `{start, stop, color}` entry of a segment mapping, before
validation. -/
structure Entry where
  start : Option Int
  stop : Option Int
  color : Option String
deriving DecidableEq, Repr

/-- One validated outbound segment range; `col` models the nested
`[[r, g, b]]` single-color list. -/
structure SegUpdate where
  start : Int
  stop : Int
  col : Int × Int × Int
deriving DecidableEq, Repr

/-- The combined state update `{'on': True, 'bri': ..., 'seg': ..., 'psave': 1}`. -/
structure Payload where
  «on» : Bool
  bri : Int
  seg : List SegUpdate
  psave : Int
deriving DecidableEq, Repr

/-- Flattened device record (one value of `devices_data`). -/
structure DeviceRec where
  ip : Option String
  segColors : List String
  currColor : Option String
  segMapping : Option (List Entry)
  brightness : Option Int
  status : Option String
  lastSeen : Option Int
  zoneId : Option Int
  groupId : Option Int
  locationId : Option Int
deriving DecidableEq, Repr

/-- The record `dev = self.devices_data.get(...) or {}` degenerates to when
the device id is unknown. -/
def emptyDev : DeviceRec :=
  { ip := none, segColors := [], currColor := none, segMapping := none,
    brightness := none, status := none, lastSeen := none,
    zoneId := none, groupId := none, locationId := none }

/-- The in-memory flattened index `devices_data` (a dict keyed by integer
device id). -/
def DevicesMap : Type := List (Int × DeviceRec)

instance : DecidableEq DevicesMap := by
  unfold DevicesMap
  infer_instance

/-- `devices_data.get(device_id)`. -/
def lookupDev : List (Int × DeviceRec) → Int → Option DeviceRec
  | [], _ => none
  | (k, d) :: t, id => if k = id then some d else lookupDev t id

/-- In-place update of the record stored under a key, a no-op when the key is
absent (`if device_id_int in self.devices_data:`). -/
def updateDev (m : List (Int × DeviceRec)) (id : Int) (f : DeviceRec → DeviceRec) :
    List (Int × DeviceRec) :=
  m.map (fun p => if p.1 = id then (p.1, f p.2) else p)

/-- `flat_devices[device_id] = device_copy`: dict insertion overwrites an
existing key in place and appends a new key. -/
def insertDev (m : List (Int × DeviceRec)) (id : Int) (d : DeviceRec) :
    List (Int × DeviceRec) :=
  if m.any (fun p => p.1 = id) then
    m.map (fun p => if p.1 = id then (p.1, d) else p)
  else m ++ [(id, d)]

/-! ## LED-count discovery (device_manager.py lines 281-297 and 434-448)

`detect` models the `total_leds` discovery chain applied to the value
`device_state = esp32_client.get_device_state(ip) or {}`.  The result is the
final Python `total_leds` value; `none` models an exception escaping the
chain (e.g. `.get` on a non-dict response, or iterating a malformed `seg`
list). -/

/-- Substring test for the literal `"len"` (Python `'len' in s` on a
string). -/
def hasLenSub : List Char → Bool
  | 'l' :: 'e' :: 'n' :: _ => true
  | _ :: t => hasLenSub t
  | [] => false

/-- `'len' in s` for one element of the `seg` list: key containment for a
dict, substring test for a string, element equality for a list; `none` models
the `TypeError` raised for other element types. -/
def hasLenElem : JVal → Option Bool
  | .jobj fs => some (jLookup fs "len").isSome
  | .jarr xs => some (xs.any (fun x => match x with | .jstr s => s = "len" | _ => false))
  | .jstr s => some (hasLenSub s.data)
  | _ => none

/-- `any('len' in s for s in seg)`: short-circuiting, propagating a raise. -/
def anyHasLen : List JVal → Option Bool
  | [] => some false
  | x :: t =>
    match hasLenElem x with
    | none => none
    | some true => some true
    | some false => anyHasLen t

/-- `sum((s.get('len') or 0) for s in seg)`: every element must be a dict and
every `len` value a number (Python bools count as ints); otherwise the sum
raises (`none`). -/
def sumLens : List JVal → Option Int
  | [] => some 0
  | x :: t =>
    match x with
    | .jobj fs =>
      let v := pyOrJ ((jLookup fs "len").getD .jnull) (.jnum 0)
      match v with
      | .jnum n => (sumLens t).map (fun s => n + s)
      | .jbool b => (sumLens t).map (fun s => (if b then 1 else 0) + s)
      | _ => none
    | _ => none

/-- The `total_leds` discovery chain.  Input is `device_state`; output is the
resulting `total_leds` `JVal` (`jnull` when nothing usable was found), or
`none` when the chain raises. -/
def detect (ds : JVal) : Option JVal := do
  let st ← pyGet ds "state"
  let root := if jIsObj st then st else ds
  let i1 ← pyGet ds "info"
  let info := pyOrJ (pyOrJ i1 (jGetD root "info")) (.jobj [])
  let tl1 : JVal :=
    if jIsObj info ∧ jIsObj (jGetD info "leds") then
      pyOrJ (jGetD (jGetD info "leds") "count") (jGetD (jGetD info "leds") "led_count")
    else .jnull
  let tl2 : JVal :=
    if ¬ jTruthy tl1 ∧ jIsObj info then
      pyOrJ (pyOrJ (jGetD info "leds") (jGetD info "led_count")) (jGetD info "count")
    else tl1
  let tl3 ←
    if jTruthy tl2 then pure tl2
    else
      match jGetD root "seg" with
      | .jarr xs => do
        let hl ← anyHasLen xs
        if hl then do
          let s ← sumLens xs
          pure (JVal.jnum s)
        else pure tl2
      | _ => pure tl2
  let tl4 : JVal :=
    if ¬ jTruthy tl3 then
      let topLen := pyOrJ (pyOrJ (jGetD root "leds") (jGetD root "length")) .jnull
      if jIsInt topLen ∧ jIntVal topLen > 0 then topLen else tl3
    else tl3
  pure tl4

/-- `esp32_client.get_device_state(ip_address) or {}`: a failed transport
call (`None`) or a falsy response becomes the empty dict. -/
def pyOrEmptyObj : Option JVal → JVal
  | some v => if jTruthy v then v else .jobj []
  | none => .jobj []

/-! ## Segment Mapping Engine (device_manager.py lines 303-373 and 453-513;
the two blocks are textually identical). -/

/-- `led_count = total_leds if total_leds and total_leds > 0 else 60`, on the
discovered `total_leds` value.  `none` models the `TypeError` raised when a
truthy non-numeric value is compared with `0` (which aborts the
reconciliation). -/
def ledCountOfTL (tl : JVal) : Option Int :=
  if jTruthy tl then
    match tl with
    | .jnum n => some (if 0 < n then n else 60)
    | .jbool b => some (if b then 1 else 60)
    | _ => none
  else some 60

/-- The effective LED count: the base choice above, raised to
`len(seg_colors)` when the saved colors are more numerous. -/
def effLedCount (tl : JVal) (segColors : List String) : Option Int :=
  (ledCountOfTL tl).map
    (fun lc => if (segColors.length : Int) > lc then (segColors.length : Int) else lc)

/-- The `for idx, col in enumerate(seg_colors)` loop emitting one-LED
candidate ranges, with `break` once `idx >= led_count`. -/
def oneLedEntries (lc : Int) (idx : Nat) : List String → List Entry
  | [] => []
  | c :: cs =>
    if (idx : Int) ≥ lc then []
    else ⟨some (idx : Int), some ((idx : Int) + 1), some c⟩ :: oneLedEntries lc (idx + 1) cs

/-- Auto-generation of a segment mapping when no saved mapping exists
(lines 318-335 / 468-483): a single whole-strip range when only a current
color is saved, otherwise one-LED ranges per saved color plus an optional
trailing rest range. -/
def autoSegMapping (lc : Int) (segColors : List String) (currColor : Option String) :
    List Entry :=
  let color0 := segColors.head?
  let color1 := segColors.get? 1
  let colorRest := if truthyStr currColor then currColor else pyOrStr color1 color0
  if segColors.isEmpty ∧ truthyStr currColor then
    [⟨some 0, some lc, colorRest⟩]
  else
    oneLedEntries lc 0 segColors ++
      (if lc > (segColors.length : Int) ∧ truthyStr colorRest then
        [⟨some (segColors.length : Int), some lc, colorRest⟩]
      else [])

/-- Validation of one candidate entry (lines 341-367 / 486-509): a missing
`stop` is skipped, an unparseable color or missing `start` is skipped, and a
range with `start >= stop` is skipped. -/
def processEntry (e : Entry) : Option SegUpdate :=
  match e.stop with
  | none => none
  | some stp =>
    match hexToRgbOpt e.color, e.start with
    | some rgb, some st => if st < stp then some ⟨st, stp, rgb⟩ else none
    | _, _ => none

/-- The surviving outbound ranges, in original order. -/
def segUpdatesOf (m : List Entry) : List SegUpdate :=
  m.filterMap processEntry

/-- `{'on': True, 'bri': int(bri), 'seg': seg_updates, 'psave': 1}` when at
least one range survived; nothing is sent otherwise.  `bri` is the stored
`device_brightness` when it is an int, else 128. -/
def mkPayload (brightness : Option Int) : List SegUpdate → Option Payload
  | [] => none
  | u :: us => some ⟨true, brightness.getD 128, u :: us, 1⟩

/-- The reconciliation payload computed from a device record and the
discovered `total_leds` value: a saved non-empty mapping is used verbatim,
otherwise a mapping is auto-generated at the effective LED count.  `none`
when nothing is to be sent (no surviving range, or the led-count comparison
raised). -/
def reconcilePayload (dev : DeviceRec) (tl : JVal) : Option Payload :=
  match dev.segMapping with
  | some (e :: es) => mkPayload dev.brightness (segUpdatesOf (e :: es))
  | _ =>
    match effLedCount tl dev.segColors with
    | none => none
    | some lc =>
      mkPayload dev.brightness (segUpdatesOf (autoSegMapping lc dev.segColors dev.currColor))

/-! ## Inventory document and `load_devices` (device_manager.py lines 36-72) -/

/-- A device as stored in the nested inventory document (`device_id` plus the
record fields; string ids are normalized to ints by `load_devices`). -/
structure NetDevice where
  device_id : Int
  fields : DeviceRec
deriving DecidableEq, Repr

/-- A location node (`location.get('device', []) or []` makes an absent or
null device list empty). -/
structure NetLocation where
  location_id : Option Int
  device : List NetDevice
deriving DecidableEq, Repr

/-- A group node. -/
structure NetGroup where
  group_id : Option Int
  location : List NetLocation
deriving DecidableEq, Repr

/-- A zone node. -/
structure NetZone where
  zone_id : Option Int
  groups : List NetGroup
deriving DecidableEq, Repr

/-- The persisted inventory document (`network_devices.json`). -/
structure NetDoc where
  zones : List NetZone
deriving DecidableEq, Repr

/-- Outcome of reading and parsing the inventory file: the file is missing
(`load_json_file` returns `None`), the JSON is unparseable (`json.load`
raises), the parsed value is falsy or lacks a `zones` key, or a well-formed
document. -/
inductive LoadResult where
  | missing
  | parseError
  | badShape
  | ok (doc : NetDoc)
deriving DecidableEq

/-- The flattening loop of `load_devices`: every device is inserted under its
id with the enclosing zone/group/location ids recorded on the copy. -/
def flattenDoc (doc : NetDoc) : List (Int × DeviceRec) :=
  doc.zones.foldl
    (fun acc z =>
      z.groups.foldl
        (fun acc g =>
          g.location.foldl
            (fun acc l =>
              l.device.foldl
                (fun acc d =>
                  insertDev acc d.device_id
                    { d.fields with zoneId := z.zone_id, groupId := g.group_id,
                                    locationId := l.location_id })
                acc)
            acc)
        acc)
    []

/-- `DeviceManager.load_devices`: a missing file, a parse error or a document
without a usable `zones` key resets the index to the empty dict and returns
`False`; a well-formed document replaces the index wholesale and returns
`True`.  The previous index never survives a failed reload. -/
def load_devices : LoadResult → DevicesMap → DevicesMap × Bool
  | .ok doc, _ => (flattenDoc doc, true)
  | _, _ => ([], false)

/-! ## Device Manager operations (device_manager.py) -/

/-- `DeviceManager.get_device_ip` (lines 90-106). -/
def get_device_ip (m : DevicesMap) (id : Int) : Option String :=
  match lookupDev m id with
  | some d => d.ip
  | none => none

/-- `DeviceManager.get_device_state` (lines 121-151): no usable address
returns `None` without touching the record; otherwise the transport response
marks the device `online` with `last_seen = now` when truthy, `offline`
otherwise, and is returned as-is. -/
def get_device_state (m : DevicesMap) (id : Int) (now : Int)
    (stateResp : Option JVal) : DevicesMap × Option JVal :=
  if ¬ truthyStr (get_device_ip m id) then (m, none)
  else
    match stateResp with
    | some st =>
      if jTruthy st then
        (updateDev m id (fun d => { d with lastSeen := some now, status := some "online" }),
         some st)
      else
        (updateDev m id (fun d => { d with status := some "offline" }), some st)
    | none =>
      (updateDev m id (fun d => { d with status := some "offline" }), none)

/-- `DeviceManager.set_device_state` (lines 189-209): resolve the address and
delegate to the transport; the record is not modified. -/
def set_device_state (m : DevicesMap) (id : Int) (_stateData : JVal)
    (resp : Option JVal) : DevicesMap × Option JVal :=
  if ¬ truthyStr (get_device_ip m id) then (m, none)
  else (m, resp)

/-- `DeviceManager.set_device_brightness` (lines 211-228): delegate to the
transport; the record is not modified. -/
def set_device_brightness (m : DevicesMap) (id : Int) (_brightness : Int)
    (resp : Option JVal) : DevicesMap × Option JVal :=
  if ¬ truthyStr (get_device_ip m id) then (m, none)
  else (m, resp)

/-- `DeviceManager.set_device_effect` (lines 529-546): delegate to the
transport; the record is not modified. -/
def set_device_effect (m : DevicesMap) (id : Int) (_effectId : Int)
    (resp : Option JVal) : DevicesMap × Option JVal :=
  if ¬ truthyStr (get_device_ip m id) then (m, none)
  else (m, resp)

/-- Transport outcomes for one `set_device_power` call: the power-toggle
response, the best-effort state fetch used for LED-count discovery, and the
response to the combined segment update. -/
structure PowerEnv where
  toggle : Option JVal
  stateResp : Option JVal
  sendResp : Option JVal

/-- `DeviceManager.set_device_power` (lines 230-385).  Returns the (unchanged)
index, the value returned to the caller, and the combined payload sent during
reconciliation (`none` when nothing was sent).  When turning on after a
successful toggle, the reconciliation runs inside a catch-all: a raise during
LED-count discovery or led-count comparison aborts it silently, and the
toggle result is returned regardless. -/
def set_device_power (m : DevicesMap) (id : Int) (onFlag : Bool)
    (env : PowerEnv) : DevicesMap × Option JVal × Option Payload :=
  if ¬ truthyStr (get_device_ip m id) then (m, none, none)
  else
    let result := env.toggle
    let sent :=
      if onFlag ∧ result.isSome then
        let dev := (lookupDev m id).getD emptyDev
        let ds := pyOrEmptyObj env.stateResp
        match detect ds with
        | none => none
        | some tl => reconcilePayload dev tl
      else none
    (m, result, sent)

/-- Transport outcomes for one `apply_saved_state` call. -/
structure ApplyEnv where
  stateResp : Option JVal
  sendResp : Option JVal

/-- `DeviceManager.apply_saved_state` (lines 387-527): reload the inventory
from disk, resolve the device, discover the LED count (a raise during
discovery just leaves `total_leds = None`), compute the reconciliation
payload and send it.  Returns the reloaded index, the payload sent (`none`
when nothing was applied) and the value returned to the caller. -/
def apply_saved_state (file : LoadResult) (m : DevicesMap) (id : Int)
    (env : ApplyEnv) : DevicesMap × Option Payload × Option JVal :=
  let m1 := (load_devices file m).1
  let dev := (lookupDev m1 id).getD emptyDev
  if ¬ truthyStr (get_device_ip m1 id) then (m1, none, none)
  else
    let ds := pyOrEmptyObj env.stateResp
    let tl := (detect ds).getD .jnull
    match reconcilePayload dev tl with
    | some p => (m1, some p, env.sendResp)
    | none => (m1, none, none)

/-! ## API layer: the power endpoint (api/devices.py lines 217-243) -/

/-- The HTTP response of `POST /api/devices/<id>/power`: message of the JSON
envelope and status code. -/
def power_endpoint (m : DevicesMap) (id : Int) (body : Option (List (String × JVal)))
    (env : PowerEnv) : String × Nat :=
  match body with
  | none => ("Power state (on) is required", 400)
  | some data =>
  if data.isEmpty ∨ (jLookup data "on").isNone then
    ("Power state (on) is required", 400)
  else
    let onB := jTruthy ((jLookup data "on").getD .jnull)
    if ¬ truthyStr (get_device_ip m id) then
      ("Device not found or unreachable", 404)
    else
      match (set_device_power m id onB env).2.1 with
      | none => ("Device not found or unreachable", 404)
      | some _ => ("success", 200)

/-! ## Inventory Store atomic write (file_helpers.py lines 264-318)

The lock dynamics are driven by an oracle `busy : Nat → Bool` telling whether
the exclusive creation of the lock file fails at the k-th polling attempt.
With the default timeout of 5.0 seconds and a 0.05-second sleep between
attempts, at most 100 retries happen after the first attempt before
`_acquire_lock` gives up. -/

/-- Default lock timeout in seconds (`timeout: float = 5.0`). -/
def lockTimeoutSeconds : Nat := 5

/-- Number of retries within the timeout window (timeout divided by the
0.05-second poll interval). -/
def lockMaxPolls : Nat := lockTimeoutSeconds * 20

/-- The polling loop of `_acquire_lock` starting at attempt `k` with `fuel`
retries left. -/
def acquireLockFrom (busy : Nat → Bool) : Nat → Nat → Bool
  | fuel, k =>
    if busy k = false then true
    else
      match fuel with
      | 0 => false
      | fuel + 1 => acquireLockFrom busy fuel (k + 1)

/-- `_acquire_lock(lock_path, timeout=5.0)`. -/
def acquireLock (busy : Nat → Bool) : Bool :=
  acquireLockFrom busy lockMaxPolls 0

/-- The observable file-system steps of `_atomic_write_json`. -/
inductive FsOp where
  | createLock
  | writeTmp (data : String)
  | flush
  | fsync
  | replaceTmpOverTarget
  | removeLock
deriving DecidableEq, Repr

/-- The durable files touched by `_atomic_write_json`: the target document
and the staging temp file. -/
structure FsState where
  target : Option String
  tmp : Option String
deriving DecidableEq, Repr

/-- `_atomic_write_json(path, data)`: acquire the lock (raising when the
bounded wait expires, before any file is touched), stage the serialized data
to the temp file, flush and fsync it, atomically rename it over the target,
and release the lock.  Returns the write outcome, the resulting file-system
state (unchanged on a lock failure) and the ordered trace of steps
performed. -/
def atomic_write_json (busy : Nat → Bool) (fs : FsState) (data : String) :
    Except String Unit × FsState × List FsOp :=
  if ¬ acquireLock busy then
    (Except.error "Could not acquire lock for writing", fs, [])
  else
    let staged : FsState := { fs with tmp := some data }
    let replaced : FsState := { staged with target := some data, tmp := none }
    (Except.ok (), replaced,
     [.createLock, .writeTmp data, .flush, .fsync, .replaceTmpOverTarget, .removeLock])

/-! ## Specification-level helpers and concrete fixtures -/

/-- How many of the given ranges cover the LED index `i` (half-open
`[start, stop)` semantics). -/
def countCover (us : List SegUpdate) (i : Int) : Nat :=
  us.countP (fun u => decide (u.start ≤ i ∧ i < u.stop))

/-- The device of the repository's own test fixture
(`backend/tests/test_device_manager_segments.py`). -/
def fixtureRec : DeviceRec :=
  { emptyDev with ip := some "10.0.0.140",
                  segColors := ["#3dd1db", "#a52222"],
                  currColor := some "#afab2c" }

/-- The fixture inventory document: one zone, one group, one location, one
device with id 1. -/
def fixtureDoc : NetDoc :=
  ⟨[⟨some 1, [⟨some 1, [⟨some 1, [⟨1, fixtureRec⟩]⟩]⟩]⟩]⟩

/-- The transport outcomes of the fixture test: the power toggle succeeds and
the device reports `{'seg': [], 'leds': 300}`. -/
def fixtureEnv : PowerEnv :=
  { toggle := some (.jobj [("success", .jbool true)]),
    stateResp := some (.jobj [("seg", .jarr []), ("leds", .jnum 300)]),
    sendResp := some (.jobj [("success", .jbool true)]) }

/-- A device whose saved segment colors are one malformed and one valid
string, with no saved current color. -/
def malformedRec : DeviceRec :=
  { emptyDev with ip := some "10.0.0.7",
                  segColors := ["not-a-color", "#ffffff"] }

/-- A reachable-by-address device record with default fields. -/
def devA : DeviceRec := { emptyDev with ip := some "10.0.0.9" }

/-- A device currently marked offline. -/
def devOffline : DeviceRec :=
  { emptyDev with ip := some "10.0.0.5", status := some "offline" }

/-- Transport outcomes where every call fails (retries exhausted). -/
def envAllFail : PowerEnv := { toggle := none, stateResp := none, sendResp := none }

/-! ## Theorems -/

/-- Every payload built by `mkPayload` is the combined update with `on` true,
`psave` 1, the stored-or-default brightness and the given non-empty range
list. -/
theorem mkPayload_some (b : Option Int) (us : List SegUpdate) (p : Payload)
    (h : mkPayload b us = some p) :
    p.«on» = true ∧ p.psave = 1 ∧ p.bri = b.getD 128 ∧ p.seg = us ∧ us ≠ [] := by
  cases us with
  | nil => exact absurd h (by simp [mkPayload])
  | cons u t =>
    rw [mkPayload] at h
    injection h with h
    subst h
    exact ⟨rfl, rfl, rfl, rfl, by simp⟩

/-- Shape of any payload produced by the reconciliation pipeline. -/
theorem reconcilePayload_shape (dev : DeviceRec) (tl : JVal) (p : Payload)
    (h : reconcilePayload dev tl = some p) :
    p.«on» = true ∧ p.psave = 1 ∧ p.bri = dev.brightness.getD 128 ∧ p.seg ≠ [] := by
  unfold reconcilePayload at h
  split at h
  · obtain ⟨h1, h2, h3, h4, h5⟩ := mkPayload_some _ _ _ h
    exact ⟨h1, h2, h3, h4 ▸ h5⟩
  · split at h
    · exact absurd h (by simp)
    · obtain ⟨h1, h2, h3, h4, h5⟩ := mkPayload_some _ _ _ h
      exact ⟨h1, h2, h3, h4 ▸ h5⟩

/-- Every range surviving validation satisfies `start < stop`. -/
theorem mem_segUpdates_start_lt_stop (m : List Entry) (u : SegUpdate)
    (hu : u ∈ segUpdatesOf m) : u.start < u.stop := by
  unfold segUpdatesOf at hu
  obtain ⟨e, _, hpe⟩ := List.mem_filterMap.mp hu
  unfold processEntry at hpe
  split at hpe
  · exact absurd hpe (by simp)
  · split at hpe
    · split at hpe
      · injection hpe with h2
        subst h2
        assumption
      · exact absurd hpe (by simp)
    · exact absurd hpe (by simp)

/-- A generated entry with a parseable color and `start < stop` survives
validation unchanged. -/
theorem processEntry_valid (st stp : Int) (c : String) (rgb : Int × Int × Int)
    (hc : hex_to_rgb c = some rgb) (hlt : st < stp) :
    processEntry ⟨some st, some stp, some c⟩ = some ⟨st, stp, rgb⟩ := by
  simp [processEntry, hexToRgbOpt, hc, hlt]

/-- `countCover` distributes over list append. -/
theorem countCover_append (a b : List SegUpdate) (i : Int) :
    countCover (a ++ b) i = countCover a i + countCover b i := by
  simp [countCover, List.countP_append]

/-- The empty string never parses (so a parseable color is truthy). -/
theorem hex_to_rgb_empty : hex_to_rgb "" = none := rfl

/-- `effLedCount` never returns fewer LEDs than there are saved segment
colors. -/
theorem effLedCount_ge (tl : JVal) (colors : List String) (lc : Int)
    (h : effLedCount tl colors = some lc) : (colors.length : Int) ≤ lc := by
  unfold effLedCount at h
  cases hbase : ledCountOfTL tl with
  | none => rw [hbase] at h; exact absurd h (by simp)
  | some base =>
    rw [hbase] at h
    simp only [Option.map] at h
    injection h with h
    subst h
    split <;> omega

/-- Coverage count of the processed one-LED candidate ranges: with all colors
parseable and the loop never hitting its `break`, the index `i` is covered
exactly when `idx ≤ i < idx + len`. -/
theorem countCover_oneLed (lc : Int) (colors : List String) :
    ∀ (idx : Nat),
      (∀ c ∈ colors, (hex_to_rgb c).isSome = true) →
      ((idx : Int) + colors.length ≤ lc) →
      ∀ i : Int,
        countCover (segUpdatesOf (oneLedEntries lc idx colors)) i =
          if (idx : Int) ≤ i ∧ i < (idx : Int) + colors.length then 1 else 0 := by
  induction colors with
  | nil =>
    intro idx _ _ i
    simp only [oneLedEntries, segUpdatesOf, List.filterMap_nil, countCover, List.countP_nil,
      List.length_nil, Nat.cast_zero, add_zero]
    rw [if_neg (by omega)]
  | cons c cs ih =>
    intro idx hall hle i
    obtain ⟨rgb, hrgb⟩ := Option.isSome_iff_exists.mp (hall c (by simp))
    have hlen : ((c :: cs).length : Int) = (cs.length : Int) + 1 := by
      simp only [List.length_cons]
      push_cast
      ring
    have hklt : ¬ ((idx : Int) ≥ lc) := by
      rw [hlen] at hle
      omega
    rw [oneLedEntries, if_neg hklt]
    unfold segUpdatesOf
    rw [List.filterMap_cons_some
         (processEntry_valid (idx : Int) ((idx : Int) + 1) c rgb hrgb (by omega))]
    have hle2 : (((idx + 1 : Nat)) : Int) + cs.length ≤ lc := by
      rw [hlen] at hle
      push_cast
      omega
    have hrest := ih (idx + 1) (fun x hx => hall x (by simp [hx])) hle2 i
    unfold segUpdatesOf at hrest
    rw [countCover, List.countP_cons]
    rw [countCover] at hrest
    rw [hrest]
    push_cast
    simp only [decide_eq_true_eq]
    split_ifs <;> (first | rfl | omega)

/-- Membership of every saved color's candidate range in the processed
one-LED loop output. -/
theorem mem_oneLedEntries (lc : Int) (colors : List String) :
    ∀ (idx : Nat) (i : Nat) (h : i < colors.length),
      ((idx : Int) + colors.length ≤ lc) →
      (⟨some ((idx + i : Nat) : Int), some (((idx + i : Nat) : Int) + 1),
          some (colors.get ⟨i, h⟩)⟩ : Entry) ∈ oneLedEntries lc idx colors := by
  induction colors with
  | nil =>
    intro idx i h
    exact absurd h (by simp)
  | cons c cs ih =>
    intro idx i h hle
    have hlen : ((c :: cs).length : Int) = (cs.length : Int) + 1 := by
      simp only [List.length_cons]
      push_cast
      ring
    have hklt : ¬ ((idx : Int) ≥ lc) := by
      rw [hlen] at hle
      omega
    rw [oneLedEntries, if_neg hklt]
    cases i with
    | zero =>
      exact List.mem_cons_self _ _
    | succ j =>
      apply List.mem_cons_of_mem
      have hj : j < cs.length := by
        simpa using h
      have hle2 : (((idx + 1 : Nat)) : Int) + cs.length ≤ lc := by
        rw [hlen] at hle
        push_cast
        omega
      have hmem := ih (idx + 1) j hj hle2
      have harith : idx + 1 + j = idx + (j + 1) := by omega
      rw [harith] at hmem
      exact hmem

/-- C2.  For every discovered LED count, non-empty list of parseable saved
segment colors and parseable current color, the auto-generated ranges at the
effective LED count exactly tile `[0, effective_led_count)`: every range has
`start < stop`, and every index in the interval is covered by exactly one
surviving range (no gap, no overlap). -/
theorem auto_generated_ranges_tile :
    ∀ (tl : JVal) (colors : List String) (curr : String) (lc : Int),
      colors ≠ [] →
      (∀ c ∈ colors, (hex_to_rgb c).isSome = true) →
      (hex_to_rgb curr).isSome = true →
      effLedCount tl colors = some lc →
      (∀ u ∈ segUpdatesOf (autoSegMapping lc colors (some curr)), u.start < u.stop) ∧
      (∀ i : Int, 0 ≤ i → i < lc →
        countCover (segUpdatesOf (autoSegMapping lc colors (some curr))) i = 1) := by
  intro tl colors curr lc hne hall hcurr heff
  have hlen : (colors.length : Int) ≤ lc := effLedCount_ge tl colors lc heff
  refine ⟨fun u hu => mem_segUpdates_start_lt_stop _ u hu, ?_⟩
  intro i h0 hilc
  have hcne : curr ≠ "" := by
    intro h
    rw [h, hex_to_rgb_empty] at hcurr
    simp at hcurr
  have htr : truthyStr (some curr) = true := by
    simp [truthyStr, hcne]
  have hie : colors.isEmpty = false := by
    cases colors
    · exact absurd rfl hne
    · rfl
  obtain ⟨rgbc, hrgbc⟩ := Option.isSome_iff_exists.mp hcurr
  have hmap : autoSegMapping lc colors (some curr) =
      oneLedEntries lc 0 colors ++
        (if lc > (colors.length : Int) then
          [(⟨some (colors.length : Int), some lc, some curr⟩ : Entry)]
        else []) := by
    simp only [autoSegMapping, hie, Bool.false_eq_true, false_and, if_false, htr, if_true]
    split_ifs with h1 h2 h3 <;> simp_all
  rw [hmap]
  by_cases hgt : lc > (colors.length : Int)
  · rw [if_pos hgt]
    unfold segUpdatesOf
    rw [List.filterMap_append, ← segUpdatesOf, ← segUpdatesOf, countCover_append]
    rw [countCover_oneLed lc colors 0 hall (by push_cast; omega) i]
    rw [show segUpdatesOf [(⟨some (colors.length : Int), some lc, some curr⟩ : Entry)] =
          [⟨(colors.length : Int), lc, rgbc⟩] from by
        unfold segUpdatesOf
        rw [List.filterMap_cons_some
             (processEntry_valid (colors.length : Int) lc curr rgbc hrgbc hgt)]
        rfl]
    rw [countCover, List.countP_cons]
    simp only [List.countP_nil, decide_eq_true_eq, Nat.cast_zero, zero_add]
    split_ifs <;> omega
  · rw [if_neg hgt]
    unfold segUpdatesOf
    rw [List.filterMap_append, ← segUpdatesOf, ← segUpdatesOf, countCover_append]
    rw [countCover_oneLed lc colors 0 hall (by push_cast; omega) i]
    simp only [segUpdatesOf, List.filterMap_nil, countCover, List.countP_nil]
    split_ifs <;> omega

/-- C2 witness: the tiling theorem applied to one saved color `#ff0000`,
current color `#00ff00` and no usable device LED count (effective count
60). -/
theorem auto_generated_ranges_tile_witness :
    (["#ff0000"] ≠ ([] : List String)) ∧
    (∀ c ∈ ["#ff0000"], (hex_to_rgb c).isSome = true) ∧
    (hex_to_rgb "#00ff00").isSome = true ∧
    effLedCount .jnull ["#ff0000"] = some 60 ∧
    ((∀ u ∈ segUpdatesOf (autoSegMapping 60 ["#ff0000"] (some "#00ff00")),
        u.start < u.stop) ∧
      (∀ i : Int, 0 ≤ i → i < 60 →
        countCover (segUpdatesOf (autoSegMapping 60 ["#ff0000"] (some "#00ff00"))) i = 1)) :=
  ⟨by decide, by decide, by decide, by decide,
    auto_generated_ranges_tile .jnull ["#ff0000"] "#00ff00" 60
      (by decide) (by decide) (by decide) (by decide)⟩

/-- C3.  The reconciliation path (shared verbatim by `set_device_power` and
`apply_saved_state`) chooses the effective LED count as the device-reported
count when it is a number greater than 0, else 60, and raises it to the
number of saved segment colors when those are more numerous; consequently
every saved segment color contributes its candidate range `[i, i+1)` to the
generated mapping — none is silently truncated. -/
theorem effective_led_count_choice :
    (∀ (n : Int) (colors : List String), 0 < n →
      effLedCount (.jnum n) colors =
        some (if (colors.length : Int) > n then (colors.length : Int) else n)) ∧
    (∀ (n : Int) (colors : List String), n ≤ 0 →
      effLedCount (.jnum n) colors =
        some (if (colors.length : Int) > 60 then (colors.length : Int) else 60)) ∧
    (∀ colors : List String,
      effLedCount .jnull colors =
        some (if (colors.length : Int) > 60 then (colors.length : Int) else 60)) ∧
    (∀ (tl : JVal) (colors : List String) (curr : Option String) (lc : Int),
      effLedCount tl colors = some lc →
      ∀ (i : Nat) (h : i < colors.length),
        (⟨some (i : Int), some ((i : Int) + 1), some (colors.get ⟨i, h⟩)⟩ : Entry) ∈
          autoSegMapping lc colors curr) := by
  refine ⟨?_, ?_, ?_, ?_⟩
  · intro n colors hn
    have h0 : n ≠ 0 := by omega
    simp [effLedCount, ledCountOfTL, jTruthy, h0, if_pos hn]
  · intro n colors hn
    by_cases h0 : n = 0
    · subst h0
      simp [effLedCount, ledCountOfTL, jTruthy]
    · have hnpos : ¬ (0 < n) := by omega
      simp [effLedCount, ledCountOfTL, jTruthy, h0, hnpos]
  · intro colors
    simp [effLedCount, ledCountOfTL, jTruthy]
  · intro tl colors curr lc heff i h
    have hlen : (colors.length : Int) ≤ lc := effLedCount_ge tl colors lc heff
    have hne : colors ≠ [] := by
      intro hc
      subst hc
      simp at h
    have hie : colors.isEmpty = false := by
      cases colors
      · exact absurd rfl hne
      · rfl
    have hmem := mem_oneLedEntries lc colors 0 i h (by push_cast; omega)
    rw [Nat.zero_add] at hmem
    unfold autoSegMapping
    simp only [hie, Bool.false_eq_true, false_and, if_false]
    exact List.mem_append_left _ hmem

/-- C3 witness: the count choice and non-truncation at a device reporting 2
LEDs with 3 saved colors (the count is raised to 3 and color index 2 still
yields its candidate range). -/
theorem effective_led_count_choice_witness :
    ((0 : Int) < 2 ∧
      effLedCount (.jnum 2) ["#ff0000", "#00ff00", "#0000ff"] =
        some (if ((["#ff0000", "#00ff00", "#0000ff"].length : Int)) > 2 then
            ((["#ff0000", "#00ff00", "#0000ff"].length : Int)) else 2)) ∧
    (effLedCount (.jnum 2) ["#ff0000", "#00ff00", "#0000ff"] = some 3 ∧
      (⟨some (2 : Int), some ((2 : Int) + 1), some "#0000ff"⟩ : Entry) ∈
        autoSegMapping 3 ["#ff0000", "#00ff00", "#0000ff"] none) :=
  ⟨⟨by decide,
    effective_led_count_choice.1 2 ["#ff0000", "#00ff00", "#0000ff"] (by decide)⟩,
   by decide,
   effective_led_count_choice.2.2.2 (.jnum 2) ["#ff0000", "#00ff00", "#0000ff"] none 3
     (by decide) 2 (by decide)⟩

/-- C4 (amended).  A color string the channel parser rejects causes exactly
that one candidate range to be dropped while every other candidate is
processed independently and survives whenever it is valid; concretely,
`segment_colors = ["not-a-color", "#ffffff"]` with no current color and the
default count 60 yields exactly the two surviving ranges `[1,2)` and
`[2,60)` (both white) — a per-range drop, never a total failure. -/
theorem malformed_color_drops_only_that_range :
    (∀ (xs ys : List Entry) (e : Entry), processEntry e = none →
      segUpdatesOf (xs ++ e :: ys) = segUpdatesOf (xs ++ ys)) ∧
    (∀ (xs ys : List Entry) (e : Entry) (u : SegUpdate), processEntry e = some u →
      segUpdatesOf (xs ++ e :: ys) = segUpdatesOf xs ++ u :: segUpdatesOf ys) ∧
    (reconcilePayload malformedRec .jnull).map (fun p => p.seg) =
      some [⟨1, 2, (255, 255, 255)⟩, ⟨2, 60, (255, 255, 255)⟩] := by
  refine ⟨?_, ?_, by rfl⟩
  · intro xs ys e h
    simp [segUpdatesOf, List.filterMap_append, List.filterMap_cons_none h]
  · intro xs ys e u h
    simp [segUpdatesOf, List.filterMap_append, List.filterMap_cons_some h]

/-- C4 witness: the locality statements applied to concrete candidate
lists — dropping the bad entry between two good ones, and keeping a valid
entry. -/
theorem malformed_color_drops_only_that_range_witness :
    segUpdatesOf
        ([⟨some 0, some 1, some "#ff0000"⟩] ++
          (⟨some 1, some 2, some "not-a-color"⟩ : Entry) ::
            [⟨some 2, some 3, some "#00ff00"⟩]) =
      segUpdatesOf ([⟨some 0, some 1, some "#ff0000"⟩] ++
        [⟨some 2, some 3, some "#00ff00"⟩]) ∧
    segUpdatesOf ([] ++ (⟨some 0, some 1, some "#ffffff"⟩ : Entry) :: []) =
      segUpdatesOf [] ++ (⟨0, 1, (255, 255, 255)⟩ : SegUpdate) :: segUpdatesOf [] :=
  ⟨malformed_color_drops_only_that_range.1 _ _ _ (by decide),
   malformed_color_drops_only_that_range.2.1 _ _ _ _ (by decide)⟩

/-- C5.  When the power-toggle transport call returns a value, turning a
device on returns exactly that value no matter what happens during the
subsequent reconciliation (failed state fetch, a raise during LED-count
discovery, empty mapping, failed send — all swallowed); and any combined
update that is sent has `on = True`, `psave = 1`, the stored brightness (or
128) and a non-empty range list. -/
theorem power_on_toggle_result_preserved :
    ∀ (m : DevicesMap) (id : Int) (env : PowerEnv) (r : JVal),
      env.toggle = some r →
      truthyStr (get_device_ip m id) = true →
      (set_device_power m id true env).2.1 = some r ∧
      (∀ p, (set_device_power m id true env).2.2 = some p →
        p.«on» = true ∧ p.psave = 1 ∧
        p.bri = ((lookupDev m id).getD emptyDev).brightness.getD 128 ∧
        p.seg ≠ []) := by
  intro m id env r ht hip
  unfold set_device_power
  rw [hip]
  simp only [Bool.not_true, Bool.false_eq_true, if_false, ite_false, ite_true]
  constructor
  · exact ht
  · intro p hp
    simp only [ht, Option.isSome_some, and_true, true_and, if_true, ite_true] at hp
    rcases hdet : detect (pyOrEmptyObj env.stateResp) with _ | tl
    · rw [hdet] at hp
      exact absurd hp (by simp)
    · rw [hdet] at hp
      exact reconcilePayload_shape _ _ _ hp

/-- C5 witness: the theorem applied at the fixture device and fixture
transport outcomes. -/
theorem power_on_toggle_result_preserved_witness :
    fixtureEnv.toggle = some (.jobj [("success", .jbool true)]) ∧
    truthyStr (get_device_ip [(1, fixtureRec)] 1) = true ∧
    ((set_device_power [(1, fixtureRec)] 1 true fixtureEnv).2.1 =
        some (.jobj [("success", .jbool true)]) ∧
      (∀ p, (set_device_power [(1, fixtureRec)] 1 true fixtureEnv).2.2 = some p →
        p.«on» = true ∧ p.psave = 1 ∧
        p.bri = ((lookupDev [(1, fixtureRec)] 1).getD emptyDev).brightness.getD 128 ∧
        p.seg ≠ [])) :=
  ⟨rfl, by decide,
   power_on_toggle_result_preserved [(1, fixtureRec)] 1 fixtureEnv
     (.jobj [("success", .jbool true)]) rfl (by decide)⟩

/-- The bounded polling wait of `_acquire_lock`: if the lock file exists at
every poll inside the timeout window, acquisition fails. -/
theorem acquireLockFrom_all_busy (busy : Nat → Bool) :
    ∀ (fuel k : Nat), (∀ j, k ≤ j → j ≤ k + fuel → busy j = true) →
      acquireLockFrom busy fuel k = false := by
  intro fuel
  induction fuel with
  | zero =>
    intro k h
    rw [acquireLockFrom, h k (le_refl k) (by omega)]
    simp
  | succ f ih =>
    intro k h
    rw [acquireLockFrom, h k (le_refl k) (by omega)]
    simpa using ih (k + 1) (fun j h1 h2 => h j (by omega) (by omega))

/-- C6.  The persisted write contract of `_atomic_write_json`: under the
default 5-second lock timeout (100 polls at 0.05 s), a write that cannot
acquire the exclusive-create lock raises and leaves the target file
untouched, while a write that acquires it stages the data to a temp file,
flushes, fsyncs, atomically renames it over the target and releases the
lock, in exactly that order. -/
theorem atomic_write_contract :
    ∀ (busy : Nat → Bool) (fs : FsState) (data : String),
      (acquireLock busy = false →
        (atomic_write_json busy fs data).1 =
          Except.error "Could not acquire lock for writing" ∧
        (atomic_write_json busy fs data).2.1 = fs ∧
        (atomic_write_json busy fs data).2.1.target = fs.target ∧
        (atomic_write_json busy fs data).2.2 = []) ∧
      (acquireLock busy = true →
        (atomic_write_json busy fs data).1 = Except.ok () ∧
        (atomic_write_json busy fs data).2.1.target = some data ∧
        (atomic_write_json busy fs data).2.1.tmp = none ∧
        (atomic_write_json busy fs data).2.2 =
          [.createLock, .writeTmp data, .flush, .fsync,
           .replaceTmpOverTarget, .removeLock]) ∧
      ((∀ j, j ≤ lockMaxPolls → busy j = true) → acquireLock busy = false) ∧
      lockMaxPolls = lockTimeoutSeconds * 20 := by
  intro busy fs data
  refine ⟨?_, ?_, ?_, rfl⟩
  · intro h
    simp [atomic_write_json, h]
  · intro h
    simp [atomic_write_json, h]
  · intro h
    exact acquireLockFrom_all_busy busy lockMaxPolls 0 (fun j _ h2 => h j (by omega))

/-- C6 witness: the contract applied with a permanently held lock (the write
fails, the old target survives) and with a free lock (the new data lands in
the target, with the full staged trace). -/
theorem atomic_write_contract_witness :
    (acquireLock (fun _ => true) = false ∧
      (atomic_write_json (fun _ => true) ⟨some "old", none⟩ "new").2.1.target =
        some "old") ∧
    (acquireLock (fun _ => false) = true ∧
      (atomic_write_json (fun _ => false) ⟨some "old", none⟩ "new").2.1.target =
        some "new" ∧
      (atomic_write_json (fun _ => false) ⟨some "old", none⟩ "new").2.2 =
        [.createLock, .writeTmp "new", .flush, .fsync,
         .replaceTmpOverTarget, .removeLock]) := by
  have hbusy : acquireLock (fun _ => true) = false :=
    (atomic_write_contract (fun _ => true) ⟨some "old", none⟩ "new").2.2.1
      (fun _ _ => rfl)
  have hfree : acquireLock (fun _ => false) = true := rfl
  refine ⟨⟨hbusy, ?_⟩, hfree, ?_, ?_⟩
  · exact ((atomic_write_contract (fun _ => true) ⟨some "old", none⟩ "new").1 hbusy).2.2.1
  · exact ((atomic_write_contract (fun _ => false) ⟨some "old", none⟩ "new").2.1 hfree).2.1
  · exact ((atomic_write_contract (fun _ => false) ⟨some "old", none⟩ "new").2.1 hfree).2.2.2

/-- C7 (amended).  Both failure conditions of the power endpoint — device
identifier absent from the flattened index, and identifier present but the
transport toggle exhausting its retries — surface to the caller as the SAME
404 response with message `Device not found or unreachable`; the Device
Manager returns `None` in both cases and no distinct `DeviceNotFound`
condition reaches the caller on this path. -/
theorem power_endpoint_same_404_response :
    ∀ (m : DevicesMap) (id : Int) (fields : List (String × JVal)) (env : PowerEnv),
      fields ≠ [] →
      (jLookup fields "on").isSome = true →
      (lookupDev m id = none →
        power_endpoint m id (some fields) env =
          ("Device not found or unreachable", 404)) ∧
      (∀ dev, lookupDev m id = some dev → truthyStr dev.ip = true →
        env.toggle = none →
        power_endpoint m id (some fields) env =
          ("Device not found or unreachable", 404)) := by
  intro m id fields env hne hon
  have hie : fields.isEmpty = false := by
    cases fields
    · exact absurd rfl hne
    · rfl
  have hnn : (jLookup fields "on").isNone = false := by
    rcases hlk : jLookup fields "on" with _ | v
    · rw [hlk] at hon
      simp at hon
    · rfl
  constructor
  · intro hlk
    have hip : get_device_ip m id = none := by
      unfold get_device_ip
      rw [hlk]
    simp [power_endpoint, hie, hnn, hip, truthyStr]
  · intro dev hlk hip htog
    have hgip : get_device_ip m id = dev.ip := by
      unfold get_device_ip
      rw [hlk]
    simp only [power_endpoint, hie, hnn, Bool.false_eq_true, or_self, if_false,
      hgip, hip, Bool.not_true, ite_false, ite_true, if_false]
    unfold set_device_power
    rw [hgip, hip]
    simp [htog]

/-- C7 witness: the amended statement applied at a concrete index without
device 1, and at an index whose device 1 is unreachable. -/
theorem power_endpoint_same_404_response_witness :
    (([("on", JVal.jbool true)] : List (String × JVal)) ≠ [] ∧
      (jLookup [("on", JVal.jbool true)] "on").isSome = true) ∧
    (lookupDev [] 1 = none ∧
      power_endpoint [] 1 (some [("on", .jbool true)]) envAllFail =
        ("Device not found or unreachable", 404)) ∧
    (lookupDev [(1, devA)] 1 = some devA ∧
      power_endpoint [(1, devA)] 1 (some [("on", .jbool true)]) envAllFail =
        ("Device not found or unreachable", 404)) := by
  refine ⟨⟨List.cons_ne_nil _ _, rfl⟩, ⟨rfl, ?_⟩, ⟨rfl, ?_⟩⟩
  · exact (power_endpoint_same_404_response [] 1 [("on", .jbool true)] envAllFail
      (List.cons_ne_nil _ _) rfl).1 rfl
  · exact (power_endpoint_same_404_response [(1, devA)] 1 [("on", .jbool true)] envAllFail
      (List.cons_ne_nil _ _) rfl).2 devA rfl (by decide) rfl

/-- C8 (amended).  Only the state-read operation applies the status state
machine: `get_device_state` marks the device `online` and stamps
`last_seen = now` exactly when the transport returns a truthy state, and
marks it `offline` on a falsy response or a failure; the write operations
(`set_device_state`, `set_device_power`, `set_device_brightness`,
`set_device_effect`) never modify the index, so neither `status` nor
`last_seen` changes there. -/
theorem status_transitions_only_on_state_read :
    ∀ (m : DevicesMap) (id : Int) (now : Int) (dev : DeviceRec),
      lookupDev m id = some dev →
      truthyStr dev.ip = true →
      (∀ st : JVal, jTruthy st = true →
        (get_device_state m id now (some st)).1 =
          updateDev m id
            (fun d => { d with lastSeen := some now, status := some "online" }) ∧
        (get_device_state m id now (some st)).2 = some st) ∧
      (∀ st : JVal, jTruthy st = false →
        (get_device_state m id now (some st)).1 =
          updateDev m id (fun d => { d with status := some "offline" })) ∧
      ((get_device_state m id now none).1 =
          updateDev m id (fun d => { d with status := some "offline" }) ∧
        (get_device_state m id now none).2 = none) ∧
      (∀ sd r, (set_device_state m id sd r).1 = m) ∧
      (∀ envp onF, (set_device_power m id onF envp).1 = m) ∧
      (∀ b r, (set_device_brightness m id b r).1 = m) ∧
      (∀ e r, (set_device_effect m id e r).1 = m) := by
  intro m id now dev hlk hip
  have hgip : get_device_ip m id = dev.ip := by
    unfold get_device_ip
    rw [hlk]
  refine ⟨?_, ?_, ?_, ?_, ?_, ?_, ?_⟩
  · intro st hst
    constructor <;> simp [get_device_state, hgip, hip, hst]
  · intro st hst
    simp [get_device_state, hgip, hip, hst]
  · constructor <;> simp [get_device_state, hgip, hip]
  · intro sd r
    unfold set_device_state
    split <;> rfl
  · intro envp onF
    unfold set_device_power
    split <;> rfl
  · intro b r
    unfold set_device_brightness
    split <;> rfl
  · intro e r
    unfold set_device_effect
    split <;> rfl

/-- C8 witness: the amended statement applied to the offline fixture device,
evaluating the online transition at a concrete truthy response. -/
theorem status_transitions_only_on_state_read_witness :
    (lookupDev [(1, devOffline)] 1 = some devOffline ∧
      truthyStr devOffline.ip = true) ∧
    ((get_device_state [(1, devOffline)] 1 42 (some (.jobj [("on", .jbool true)]))).1 =
      updateDev [(1, devOffline)] 1
        (fun d => { d with lastSeen := some 42, status := some "online" })) ∧
    (∀ sd r, (set_device_state [(1, devOffline)] 1 sd r).1 = [(1, devOffline)]) := by
  refine ⟨⟨rfl, by decide⟩, ?_, ?_⟩
  · exact ((status_transitions_only_on_state_read [(1, devOffline)] 1 42 devOffline
      rfl (by decide)).1 (.jobj [("on", .jbool true)]) rfl).1
  · exact (status_transitions_only_on_state_read [(1, devOffline)] 1 42 devOffline
      rfl (by decide)).2.2.2.1

/-- C1.  Evaluating `set_device_power(1, on=True)` at the repository's own
fixture (segment colors `#3dd1db`, `#a52222`, current color `#afab2c`,
device reporting a top-level LED count of 300): the LED-count discovery finds
300, and the reconciliation sends exactly THREE ranges — `[0,1)` with RGB
(61,209,219), `[1,2)` with (165,34,34) and one combined rest range `[2,300)`
with (175,171,44) — not the 60 ranges asserted by the claim and by the
repository's own test `test_segment_mapping_even_split`, and the last stop is
300, not 60. -/
theorem set_device_power_fixture_sends_three_ranges :
    (set_device_power (load_devices (.ok fixtureDoc) []).1 1 true fixtureEnv).2.2 =
      some { «on» := true, bri := 128,
             seg := [⟨0, 1, (61, 209, 219)⟩, ⟨1, 2, (165, 34, 34)⟩,
                     ⟨2, 300, (175, 171, 44)⟩],
             psave := 1 } ∧
    ((set_device_power (load_devices (.ok fixtureDoc) []).1 1 true fixtureEnv).2.2.map
        (fun p => p.seg.length)) = some 3 := by
  constructor <;> rfl

/-- C4 (counterexample).  With saved segment colors
`["not-a-color", "#ffffff"]`, no current color and no usable device LED
count, TWO ranges survive — the valid entry's `[1,2)` and the trailing rest
range `[2,60)` (the rest color falls back to the second saved color) — not
exactly one as the claim states. -/
theorem malformed_color_example_two_ranges_survive :
    (reconcilePayload malformedRec .jnull).map (fun p => p.seg) =
      some [⟨1, 2, (255, 255, 255)⟩, ⟨2, 60, (255, 255, 255)⟩] ∧
    ¬ ((reconcilePayload malformedRec .jnull).map (fun p => p.seg.length) = some 1) := by
  constructor
  · rfl
  · intro h
    rw [show (reconcilePayload malformedRec .jnull).map (fun p => p.seg.length)
        = some 2 from rfl] at h
    exact absurd (Option.some.inj h) (by omega)

/-- C7 (counterexample).  An identifier absent from the flattened index and
an identifier present with an unreachable device produce the SAME
caller-visible response from `POST /api/devices/<id>/power`: the identical
404 body `Device not found or unreachable`.  The two conditions are
conflated, contrary to the claim. -/
theorem power_endpoint_conflates_not_found_and_unreachable :
    power_endpoint [] 1 (some [("on", .jbool true)]) envAllFail =
      ("Device not found or unreachable", 404) ∧
    power_endpoint [(1, devA)] 1 (some [("on", .jbool true)]) envAllFail =
      ("Device not found or unreachable", 404) ∧
    power_endpoint [] 1 (some [("on", .jbool true)]) envAllFail =
      power_endpoint [(1, devA)] 1 (some [("on", .jbool true)]) envAllFail := by
  exact ⟨rfl, rfl, rfl⟩

/-- C8 (counterexample).  `set_device_state` on a device marked `offline`
returns the transport's successful response but performs NO status
transition: the record keeps status `offline` and no `last_seen` is set,
contradicting the claim that every Transport Client call updates the state
machine. -/
theorem set_device_state_keeps_offline_status :
    (set_device_state [(1, devOffline)] 1 (.jobj [("on", .jbool true)])
        (some (.jobj [("success", .jbool true)]))).2 =
      some (.jobj [("success", .jbool true)]) ∧
    (set_device_state [(1, devOffline)] 1 (.jobj [("on", .jbool true)])
        (some (.jobj [("success", .jbool true)]))).1 = [(1, devOffline)] ∧
    devOffline.status = some "offline" ∧ devOffline.lastSeen = none := by
  exact ⟨rfl, rfl, rfl, rfl⟩

/-- C9.  `apply_saved_state` is idempotent: with the persisted inventory
document unchanged (and the transport returning the same device state), a
second invocation — starting from the in-memory index the first invocation
left behind — computes exactly the same outbound payload. -/
theorem apply_saved_state_idempotent :
    ∀ (file : LoadResult) (m : DevicesMap) (id : Int) (env : ApplyEnv),
      (apply_saved_state file (apply_saved_state file m id env).1 id env).2.1 =
        (apply_saved_state file m id env).2.1 := by
  intro file m id env
  cases file <;> rfl

/-- C10.  Every failed reload — missing file, unparseable JSON, or a parsed
value without a usable `zones` key — resets the in-memory index to the empty
mapping and returns `False`, regardless of what the index previously held;
afterwards every lookup by device identifier fails. -/
theorem load_devices_failure_resets_index :
    ∀ (m : DevicesMap),
      load_devices .missing m = ([], false) ∧
      load_devices .parseError m = ([], false) ∧
      load_devices .badShape m = ([], false) ∧
      (∀ id : Int,
        lookupDev (load_devices .missing m).1 id = none ∧
        lookupDev (load_devices .parseError m).1 id = none ∧
        lookupDev (load_devices .badShape m).1 id = none) := by
  intro m
  exact ⟨rfl, rfl, rfl, fun _ => ⟨rfl, rfl, rfl⟩⟩

end LedWebControl
